import Mathlib

/-!
# Budgeting engine: shallow embedding and verification

A shallow embedding in Lean 4 of the pure computational core of the
BudgetingApp repository (`functions.py`): the budget allocator, the
savings/investment goal calculators, the unified reallocation planner,
the asset allocation optimizer, the dynamic reallocation advisor and
the goal conflict resolver.  Monetary amounts, percentages and rates
are modelled as exact rationals (`ℚ`); a Python expression that raises
`ZeroDivisionError` is modelled by a function returning `Option`,
with `none` standing for the raised error.
-/

namespace Budget

/-- An allocation: the fixed four budget categories, each holding a
monetary amount.  Models the Python dict produced by `allocate_budget`
with keys `savings`, `investments`, `personal`, `misc` (in that
insertion order). -/
structure Allocation where
  savings : ℚ
  investments : ℚ
  personal : ℚ
  misc : ℚ
deriving DecidableEq, Repr

/-- Sum of the four category amounts of an allocation (Python
`sum(allocation.values())`). -/
def Allocation.total (a : Allocation) : ℚ :=
  a.savings + a.investments + a.personal + a.misc

/-- `allocate_budget(total_amount, savings_pct, investment_pct,
personal_pct, misc_pct)` from `functions.py`: each category receives
`total_amount * (pct / 100)`. -/
def allocate_budget (total_amount savings_pct investment_pct personal_pct misc_pct : ℚ) :
    Allocation :=
  { savings := total_amount * (savings_pct / 100)
    investments := total_amount * (investment_pct / 100)
    personal := total_amount * (personal_pct / 100)
    misc := total_amount * (misc_pct / 100) }

/-- `allocate_budget` called without its last argument: the Python
signature declares the default `misc_pct=15`. -/
def allocate_budget_default (total_amount savings_pct investment_pct personal_pct : ℚ) :
    Allocation :=
  allocate_budget total_amount savings_pct investment_pct personal_pct 15

/-- `savings_goal_calculator(target_amount, months)` from
`functions.py`: `target_amount / months` with no guard; at
`months = 0` Python raises `ZeroDivisionError`, modelled as `none`. -/
def savings_goal_calculator (target_amount : ℚ) (months : ℕ) : Option ℚ :=
  if months = 0 then none else some (target_amount / months)

/-- `investment_goal_calculator(target_amount, months,
annual_return_pct)` from `functions.py`: monthly rate
`r = annual_return_pct / 100 / 12`; the `r == 0` branch falls back to
`target_amount / n`; otherwise the annuity formula
`target_amount * r / ((1 + r) ** n - 1)`.  A division whose
denominator is zero raises in Python and is modelled as `none`. -/
def investment_goal_calculator (target_amount : ℚ) (months : ℕ)
    (annual_return_pct : ℚ) : Option ℚ :=
  let r := annual_return_pct / 100 / 12
  if r = 0 then
    if months = 0 then none else some (target_amount / months)
  else
    if (1 + r) ^ months - 1 = 0 then none
    else some (target_amount * r / ((1 + r) ^ months - 1))

/-- `create_unified_reallocation_plan(allocation, savings_shortfall,
investment_shortfall, total_income)` from `functions.py`.  Funds are
freed from `misc` first, then `personal`, each protected by the floor
`total_income * 0.05`; each step reduces by
`min(max(0, allocation[cat] - min_amount), remaining_shortfall)` when
that reduction is positive and the remaining shortfall is positive
(the Python loop `break`s once `remaining_shortfall <= 0`).  If the
remaining shortfall dropped below the original total shortfall, the
freed amount is applied to savings first (when
`savings_shortfall > 0`), then the remainder to investments (when
`investment_shortfall > 0` and some freed amount remains), and the
new allocation is returned; otherwise the function returns `None`.
Below, `reduction_step` models one iteration of the reduction loop:
the loop `break`s when the remaining shortfall is no longer positive
(amount unchanged, modelled as a zero reduction); otherwise the
category may be drawn down to the floor `min_amount`, by
`min(available, remaining_shortfall)`, applied only when that
reduction is positive. -/
def reduction_step (current_amount min_amount remaining_shortfall : ℚ) : ℚ :=
  if remaining_shortfall ≤ 0 then 0
  else
    let available := max 0 (current_amount - min_amount)
    let reduction := min available remaining_shortfall
    if reduction > 0 then reduction else 0

def create_unified_reallocation_plan (allocation : Allocation)
    (savings_shortfall investment_shortfall total_income : ℚ) : Option Allocation :=
  let total_shortfall := savings_shortfall + investment_shortfall
  let min_amount := total_income * 0.05
  let misc_reduction := reduction_step allocation.misc min_amount total_shortfall
  let rem₁ := total_shortfall - misc_reduction
  let personal_reduction := reduction_step allocation.personal min_amount rem₁
  let rem₂ := rem₁ - personal_reduction
  if rem₂ < total_shortfall then
    let freed_amount := total_shortfall - rem₂
    let amount_to_savings :=
      if savings_shortfall > 0 then min savings_shortfall freed_amount else 0
    let freed_amount₂ := freed_amount - amount_to_savings
    let amount_to_investments :=
      if investment_shortfall > 0 ∧ freed_amount₂ > 0 then
        min investment_shortfall freed_amount₂
      else 0
    some { savings := allocation.savings + amount_to_savings
           investments := allocation.investments + amount_to_investments
           personal := allocation.personal - personal_reduction
           misc := allocation.misc - misc_reduction }
  else
    none

/-- The lowercased `risk_tolerance` string of
`asset_allocation_optimizer`, abstracted to an enumeration: the three
keys of the `risk_profiles` dict, plus `unknown` for every other
string, which the dict lookup `.get(..., risk_profiles['moderate'])`
sends to the moderate base profile (and which is `≠ 'conservative'`
in the later comparisons). -/
inductive RiskTolerance
  | conservative
  | moderate
  | aggressive
  | unknown
deriving DecidableEq, Repr

/-- Result of `asset_allocation_optimizer`: the three percentages
(each a Python `round(_, 1)`) and the fixed rebalance trigger.  The
`risk_profile` display string of the Python dict is not modelled. -/
structure PortfolioAllocation where
  stocks : ℚ
  bonds : ℚ
  cash : ℚ
  rebalance_trigger : ℚ
deriving DecidableEq, Repr

/-- Round to the nearest integer, ties to even — the rounding used by
Python's builtin `round`.  (On the inputs arising here all values are
exactly representable, so binary floating point introduces no
discrepancy.) -/
def roundHalfEven (q : ℚ) : ℤ :=
  if q - ⌊q⌋ = 1 / 2 then (if 2 ∣ ⌊q⌋ then ⌊q⌋ else ⌊q⌋ + 1) else round q

/-- Python `round(x, 1)`: one decimal place, ties to even. -/
def round1 (q : ℚ) : ℚ := (roundHalfEven (10 * q) : ℚ) / 10

/-! `asset_allocation_optimizer(age, risk_tolerance, timeline_years)`
from `functions.py` is modelled in stages, one named function per
Python phase; each in-place reassignment under a Python `if` becomes
one `if`-expression per variable with the same condition, in the same
order: base profile, age adjustment (skipped for conservative),
timeline adjustment, conservative re-cap, and the final normalization
(performed only when the running total differs from 100). -/

/-- `risk_profiles[...]['base_stocks']`: 30 / 60 / 80, defaulting to
moderate for unknown strings. -/
def risk_base_stocks : RiskTolerance → ℚ
  | .conservative => 30
  | .moderate => 60
  | .aggressive => 80
  | .unknown => 60

/-- `risk_profiles[...]['base_bonds']`: 55 / 30 / 15. -/
def risk_base_bonds : RiskTolerance → ℚ
  | .conservative => 55
  | .moderate => 30
  | .aggressive => 15
  | .unknown => 30

/-- `risk_profiles[...]['base_cash']`: 15 / 10 / 5. -/
def risk_base_cash : RiskTolerance → ℚ
  | .conservative => 15
  | .moderate => 10
  | .aggressive => 5
  | .unknown => 10

/-- The age adjustment ladder of `asset_allocation_optimizer`. -/
def age_adjustment (age : ℚ) : ℚ :=
  if age < 30 then 10
  else if age < 40 then 5
  else if age < 50 then 0
  else if age < 60 then -10
  else -20

/-- `stock_pct` after the age-adjustment phase (applied only for
non-conservative tiers, clamped to `[20, 85]`). -/
def stock_after_age (age : ℚ) (risk : RiskTolerance) : ℚ :=
  if risk ≠ .conservative then
    max 20 (min 85 (risk_base_stocks risk + age_adjustment age))
  else risk_base_stocks risk

/-- `bond_pct` after the age-adjustment phase: 75% of the remainder
for non-conservative tiers. -/
def bond_after_age (age : ℚ) (risk : RiskTolerance) : ℚ :=
  if risk ≠ .conservative then (100 - stock_after_age age risk) * 0.75
  else risk_base_bonds risk

/-- `cash_pct` after the age-adjustment phase: 25% of the remainder
for non-conservative tiers. -/
def cash_after_age (age : ℚ) (risk : RiskTolerance) : ℚ :=
  if risk ≠ .conservative then (100 - stock_after_age age risk) * 0.25
  else risk_base_cash risk

/-- `stock_pct` after the timeline-adjustment phase. -/
def stock_after_timeline (age : ℚ) (risk : RiskTolerance) (t : ℚ) : ℚ :=
  if t < 2 then max 10 (stock_after_age age risk - 30)
  else if t < 5 then max 20 (stock_after_age age risk - 15)
  else stock_after_age age risk

/-- `cash_pct` after the timeline-adjustment phase. -/
def cash_after_timeline (age : ℚ) (risk : RiskTolerance) (t : ℚ) : ℚ :=
  if t < 2 then max 30 (cash_after_age age risk + 20)
  else if t < 5 then max 15 (cash_after_age age risk + 10)
  else cash_after_age age risk

/-- `bond_pct` after the timeline-adjustment phase: recomputed as the
remainder in both short-timeline branches. -/
def bond_after_timeline (age : ℚ) (risk : RiskTolerance) (t : ℚ) : ℚ :=
  if t < 2 then 100 - stock_after_timeline age risk t - cash_after_timeline age risk t
  else if t < 5 then 100 - stock_after_timeline age risk t - cash_after_timeline age risk t
  else bond_after_age age risk

/-- `stock_pct` after the conservative re-cap at 40. -/
def stock_capped (age : ℚ) (risk : RiskTolerance) (t : ℚ) : ℚ :=
  if risk = .conservative then min (stock_after_timeline age risk t) 40
  else stock_after_timeline age risk t

/-- `bond_pct` after the conservative re-cap: 70% of the remainder. -/
def bond_capped (age : ℚ) (risk : RiskTolerance) (t : ℚ) : ℚ :=
  if risk = .conservative then (100 - stock_capped age risk t) * 0.7
  else bond_after_timeline age risk t

/-- `cash_pct` after the conservative re-cap: 30% of the remainder. -/
def cash_capped (age : ℚ) (risk : RiskTolerance) (t : ℚ) : ℚ :=
  if risk = .conservative then (100 - stock_capped age risk t) * 0.3
  else cash_after_timeline age risk t

/-- The running total `stock_pct + bond_pct + cash_pct` checked by
the final normalization step. -/
def pre_normal_total (age : ℚ) (risk : RiskTolerance) (t : ℚ) : ℚ :=
  stock_capped age risk t + bond_capped age risk t + cash_capped age risk t

/-- `asset_allocation_optimizer`: normalize to 100 when the running
total differs from 100, then round each percentage to one decimal. -/
def asset_allocation_optimizer (age : ℚ) (risk_tolerance : RiskTolerance)
    (timeline_years : ℚ) : PortfolioAllocation :=
  let total := pre_normal_total age risk_tolerance timeline_years
  let stock := stock_capped age risk_tolerance timeline_years
  let bond := bond_capped age risk_tolerance timeline_years
  let cash := cash_capped age risk_tolerance timeline_years
  { stocks := round1 (if total ≠ 100 then stock / total * 100 else stock)
    bonds := round1 (if total ≠ 100 then bond / total * 100 else bond)
    cash := round1 (if total ≠ 100 then cash / total * 100 else cash)
    rebalance_trigger := 5 }

/-! ### Dynamic reallocation advisor

`dynamic_reallocation_suggestions(allocation, actual_spending,
months_tracked)` from `functions.py`.  The Python dicts are modelled
by the fixed four-category `Allocation` record; iteration over
`allocation.keys()` is the fixed category (= priority) order
`savings, investments, personal, misc`.  Suggestions carry their
`type`, `category`, `allocated`, `spent` and `priority` fields; the
formatted `action` display string is not modelled. -/

/-- The four budget categories, in dict-insertion order (which is
also the redistribution `priority_order`). -/
inductive Category
  | savings
  | investments
  | personal
  | misc
deriving DecidableEq, Repr

/-- `allocation.get(category, 0)` on the four-category record. -/
def Allocation.amount : Allocation → Category → ℚ
  | a, .savings => a.savings
  | a, .investments => a.investments
  | a, .personal => a.personal
  | a, .misc => a.misc

/-- The fixed iteration and priority order of the four categories. -/
def categoryOrder : List Category :=
  [Category.savings, Category.investments, Category.personal, Category.misc]

/-- `difference = allocated - spent` for one category. -/
def spending_difference (alloc spent : Allocation) (c : Category) : ℚ :=
  alloc.amount c - spent.amount c

/-- `usage_pct = spent / allocated * 100 if allocated > 0 else 0`:
the division is guarded by the explicit `allocated > 0` branch. -/
def usage_pct (alloc spent : Allocation) (c : Category) : ℚ :=
  if alloc.amount c > 0 then spent.amount c / alloc.amount c * 100 else 0

/-- The categories (in iteration order) satisfying a predicate:
models one `for category in allocation.keys(): if p: collect`
pass over the four fixed keys. -/
def categories_where (p : Category → Prop) [DecidablePred p] : List Category :=
  (if p .savings then [Category.savings] else []) ++
    (if p .investments then [Category.investments] else []) ++
    (if p .personal then [Category.personal] else []) ++
    (if p .misc then [Category.misc] else [])

/-- The `total_surplus` accumulator: each category with positive
difference contributes its difference. -/
def surplus_contribution (alloc spent : Allocation) (c : Category) : ℚ :=
  if spending_difference alloc spent c > 0 then spending_difference alloc spent c
  else 0

/-- The `total_deficit` accumulator: each category with negative
difference contributes `abs(difference)`. -/
def deficit_contribution (alloc spent : Allocation) (c : Category) : ℚ :=
  if spending_difference alloc spent c < 0 then -spending_difference alloc spent c
  else 0

def total_surplus (alloc spent : Allocation) : ℚ :=
  surplus_contribution alloc spent .savings +
    surplus_contribution alloc spent .investments +
    surplus_contribution alloc spent .personal +
    surplus_contribution alloc spent .misc

def total_deficit (alloc spent : Allocation) : ℚ :=
  deficit_contribution alloc spent .savings +
    deficit_contribution alloc spent .investments +
    deficit_contribution alloc spent .personal +
    deficit_contribution alloc spent .misc

/-- Categories with `difference < 0` (overspent). -/
def deficit_categories (alloc spent : Allocation) : List Category :=
  categories_where (fun c => spending_difference alloc spent c < 0)

/-- Categories with `difference > 0` and `usage_pct < 85`
(consistently underspending surplus candidates). -/
def surplus_categories (alloc spent : Allocation) : List Category :=
  categories_where (fun c =>
    spending_difference alloc spent c > 0 ∧ usage_pct alloc spent c < 85)

/-- Kinds of suggestion emitted by the advisor. -/
inductive SuggestionType
  | deficit_coverage
  | surplus_reallocation
  | deficit_warning
  | efficiency_tip
deriving DecidableEq, Repr

/-- Priority labels of suggestions. -/
inductive PriorityLabel
  | high
  | medium
  | low
deriving DecidableEq, Repr

/-- One suggestion dict, minus its formatted `action` string. -/
structure Suggestion where
  stype : SuggestionType
  category : Category
  allocated : ℚ
  spent : ℚ
  priority : PriorityLabel
deriving DecidableEq, Repr

/-- The deficit-coverage loop of Case 1: walk the deficit categories,
`break` once the remaining surplus is exhausted, otherwise emit one
`deficit_coverage` suggestion and consume
`min(overspend, remaining_surplus)`. -/
def cover_deficits (alloc spent : Allocation) :
    ℚ → List Category → List Suggestion
  | _, [] => []
  | remaining_surplus, c :: rest =>
      if remaining_surplus ≤ 0 then []
      else
        { stype := .deficit_coverage
          category := c
          allocated := alloc.amount c
          spent := spent.amount c
          priority := .high } ::
          cover_deficits alloc spent
            (remaining_surplus -
              min (-spending_difference alloc spent c) remaining_surplus) rest

/-- The surplus remaining after the deficit-coverage loop. -/
def remaining_after_cover (alloc spent : Allocation) :
    ℚ → List Category → ℚ
  | remaining_surplus, [] => remaining_surplus
  | remaining_surplus, c :: rest =>
      if remaining_surplus ≤ 0 then remaining_surplus
      else
        remaining_after_cover alloc spent
          (remaining_surplus -
            min (-spending_difference alloc spent c) remaining_surplus) rest

/-- The suggestion list built by `dynamic_reallocation_suggestions`
(after the `months_tracked` guard): the three exclusive branches of
the redistribution plan, then the efficiency tips for surplus
categories under 70% usage. -/
def suggestion_list (alloc spent : Allocation) : List Suggestion :=
  if total_surplus alloc spent > 0 ∨ total_deficit alloc spent > 0 then
    (if surplus_categories alloc spent ≠ [] ∧ deficit_categories alloc spent ≠ [] then
      cover_deficits alloc spent (total_surplus alloc spent)
        (deficit_categories alloc spent) ++
        (if remaining_after_cover alloc spent (total_surplus alloc spent)
            (deficit_categories alloc spent) > 0 then
          match (categories_where
              (fun c => c ∉ surplus_categories alloc spent)).head? with
          | some c =>
              [{ stype := .surplus_reallocation
                 category := c
                 allocated := alloc.amount c
                 spent := spent.amount c
                 priority := .medium }]
          | none => []
        else [])
    else if surplus_categories alloc spent ≠ [] then
      if total_surplus alloc spent > 0 then
        [{ stype := .surplus_reallocation
           category := .savings
           allocated := alloc.amount .savings
           spent := spent.amount .savings
           priority := .high }]
      else []
    else if deficit_categories alloc spent ≠ [] then
      (deficit_categories alloc spent).map (fun c =>
        { stype := .deficit_warning
          category := c
          allocated := alloc.amount c
          spent := spent.amount c
          priority := .high })
    else []) ++
    (categories_where (fun c =>
        (spending_difference alloc spent c > 0 ∧ usage_pct alloc spent c < 85) ∧
          usage_pct alloc spent c < 70)).map (fun c =>
      { stype := .efficiency_tip
        category := c
        allocated := alloc.amount c
        spent := spent.amount c
        priority := .low })
  else []

/-- `dynamic_reallocation_suggestions`: `None` below two months of
tracking, otherwise `suggestions if suggestions else None`. -/
def dynamic_reallocation_suggestions (alloc spent : Allocation)
    (months_tracked : ℕ) : Option (List Suggestion) :=
  if months_tracked < 2 then none
  else if suggestion_list alloc spent = [] then none
  else some (suggestion_list alloc spent)

/-! ### Goal conflict resolver

`goal_conflict_resolver(goals, monthly_income, current_allocation)`
from `functions.py`: score every goal on urgency, ROI and
feasibility, then sort descending by total score with Python's stable
`list.sort(key=..., reverse=True)`. -/

/-- A goal dict as consumed by the resolver.  The Python `.get`
defaults (`deadline_months`/`timeline_months` 12, amounts 0) are the
caller's concern; the record carries all fields. -/
structure Goal where
  name : String
  target_amount : ℚ
  monthly_required : ℚ
  deadline_months : ℚ
  timeline_months : ℚ
  expected_return : ℚ
deriving DecidableEq, Repr

/-- A scored goal: the carried-over goal fields plus the three
component scores, the weighted total and the priority label. -/
structure ScoredGoal where
  name : String
  target_amount : ℚ
  monthly_required : ℚ
  deadline_months : ℚ
  expected_return : ℚ
  urgency_score : ℚ
  roi_score : ℚ
  feasibility_score : ℚ
  total_score : ℚ
  priority : PriorityLabel
deriving DecidableEq, Repr

/-- `calculate_urgency_score(deadline_months)`: fixed deadline
buckets on a 0-10 scale. -/
def calculate_urgency_score (deadline_months : ℚ) : ℚ :=
  if deadline_months ≤ 3 then 10
  else if deadline_months ≤ 6 then 8
  else if deadline_months ≤ 12 then 6
  else if deadline_months ≤ 24 then 4
  else 2

/-- `calculate_roi_score(expected_return, timeline_months)`: 0 at a
zero timeline (explicit guard), otherwise buckets on the annualized
return `expected_return / timeline_months * 12`. -/
def calculate_roi_score (expected_return timeline_months : ℚ) : ℚ :=
  if timeline_months = 0 then 0
  else
    let annualized_return := expected_return / timeline_months * 12
    if annualized_return ≥ 15 then 10
    else if annualized_return ≥ 12 then 8
    else if annualized_return ≥ 8 then 6
    else if annualized_return ≥ 5 then 4
    else 2

/-- `calculate_feasibility_score(monthly_required, monthly_income,
current_allocation)`: 5 at zero requirement (explicit guard),
otherwise buckets on `coverage_ratio = available / monthly_required`
(0 when `monthly_required` is not positive). -/
def calculate_feasibility_score (monthly_required monthly_income : ℚ)
    (current_allocation : Allocation) : ℚ :=
  let available_funds := monthly_income - current_allocation.total
  if monthly_required = 0 then 5
  else
    let coverage_ratio :=
      if monthly_required > 0 then available_funds / monthly_required else 0
    if coverage_ratio ≥ 1.5 then 10
    else if coverage_ratio ≥ 1.0 then 8
    else if coverage_ratio ≥ 0.7 then 6
    else if coverage_ratio ≥ 0.5 then 4
    else 2

/-- The per-goal scoring step of `goal_conflict_resolver`:
`total_score = 0.4 * urgency + 0.3 * roi + 0.3 * feasibility`,
priority `High` at `≥ 7`, `Medium` at `≥ 5`, else `Low`. -/
def score_goal (monthly_income : ℚ) (current_allocation : Allocation)
    (g : Goal) : ScoredGoal :=
  let urgency := calculate_urgency_score g.deadline_months
  let roi := calculate_roi_score g.expected_return g.timeline_months
  let feasibility :=
    calculate_feasibility_score g.monthly_required monthly_income
      current_allocation
  let total := urgency * 0.4 + roi * 0.3 + feasibility * 0.3
  { name := g.name
    target_amount := g.target_amount
    monthly_required := g.monthly_required
    deadline_months := g.deadline_months
    expected_return := g.expected_return
    urgency_score := urgency
    roi_score := roi
    feasibility_score := feasibility
    total_score := total
    priority :=
      if total ≥ 7 then .high else if total ≥ 5 then .medium else .low }

/-- The comparator of the Python sort
`scored_goals.sort(key=lambda x: x['total_score'], reverse=True)`:
`a` may precede `b` when `b`'s total score does not exceed `a`'s. -/
def total_score_ge (a b : ScoredGoal) : Bool :=
  decide (b.total_score ≤ a.total_score)

/-- `goal_conflict_resolver`: `None` for fewer than two goals,
otherwise the scored goals stably sorted descending by total score
(Python's `list.sort` is stable; `mergeSort` with this comparator
keeps ties in input order exactly like it). -/
def goal_conflict_resolver (goals : List Goal) (monthly_income : ℚ)
    (current_allocation : Allocation) : Option (List ScoredGoal) :=
  if goals.length < 2 then none
  else
    some (((goals.map (score_goal monthly_income current_allocation))).mergeSort
      total_score_ge)

/-! ## Helper lemmas -/

lemma reduction_step_nonneg (c m r : ℚ) : 0 ≤ reduction_step c m r := by
  simp only [reduction_step]
  split_ifs with h1 h2
  · exact le_refl 0
  · exact le_of_lt h2
  · exact le_refl 0

lemma reduction_step_le (c m r : ℚ) : reduction_step c m r ≤ max 0 r := by
  simp only [reduction_step]
  split_ifs with h1 h2
  · exact le_max_left 0 r
  · exact le_trans (min_le_right _ _) (le_max_right 0 r)
  · exact le_max_left 0 r

lemma reduction_step_eq_zero_iff (c m r : ℚ) (hr : 0 < r) :
    reduction_step c m r = 0 ↔ c ≤ m := by
  simp only [reduction_step]
  rw [if_neg (not_le.mpr hr)]
  split_ifs with h
  · constructor
    · intro he
      exact absurd (he ▸ h) (lt_irrefl 0)
    · intro hcm
      exfalso
      have hmx : 0 < max 0 (c - m) := (lt_min_iff.mp h).1
      rcases lt_max_iff.mp hmx with h0 | h0
      · exact lt_irrefl 0 h0
      · linarith
  · have hmax : max 0 (c - m) ≤ 0 := by
      by_contra hmx
      push_neg at hmx
      exact h (lt_min_iff.mpr ⟨hmx, hr⟩)
    have hcm : c - m ≤ 0 := le_trans (le_max_right 0 (c - m)) hmax
    constructor
    · intro _
      linarith
    · intro _
      rfl

lemma distribute_freed (s i f : ℚ) (hs : 0 ≤ s) (hi : 0 ≤ i) (hf : 0 < f)
    (hfle : f ≤ s + i) :
    (if s > 0 then min s f else 0) +
      (if i > 0 ∧ f - (if s > 0 then min s f else 0) > 0 then
        min i (f - (if s > 0 then min s f else 0)) else 0) = f := by
  by_cases h1 : s > 0
  · rw [if_pos h1]
    by_cases h2 : i > 0 ∧ f - min s f > 0
    · rw [if_pos h2]
      have hminf : min s f = s := by
        by_cases hsf : s ≤ f
        · exact min_eq_left hsf
        · exfalso
          rw [min_eq_right (le_of_not_le hsf)] at h2
          linarith [h2.2]
      rw [hminf] at h2 ⊢
      rw [min_eq_right (by linarith : f - s ≤ i)]
      ring
    · rw [if_neg h2]
      push_neg at h2
      by_cases hsf : s ≤ f
      · rw [min_eq_left hsf] at h2 ⊢
        rcases le_or_lt i 0 with hio | hio
        · have hiz : i = 0 := le_antisymm hio hi
          have := hfle
          rw [hiz] at this
          linarith
        · have := h2 hio
          linarith
      · rw [min_eq_right (le_of_not_le hsf)]
        ring
  · rw [if_neg h1]
    push_neg at h1
    have hs0 : s = 0 := le_antisymm h1 hs
    by_cases h2 : i > 0 ∧ f - 0 > 0
    · rw [if_pos h2]
      rw [min_eq_right (by linarith : f - 0 ≤ i)]
      ring
    · exfalso
      push_neg at h2
      rcases le_or_lt i 0 with hio | hio
      · have hiz : i = 0 := le_antisymm hio hi
        linarith
      · have := h2 hio
        linarith

lemma mem_categories_where (p : Category → Prop) [DecidablePred p] (c : Category) :
    c ∈ categories_where p ↔ p c := by
  unfold categories_where
  cases c <;> split_ifs <;> simp_all

lemma categories_where_eq_nil (p : Category → Prop) [DecidablePred p] :
    categories_where p = [] ↔ ∀ c, ¬ p c := by
  rw [List.eq_nil_iff_forall_not_mem]
  exact forall_congr' fun c => not_congr (mem_categories_where p c)

lemma surplus_contribution_nonneg (alloc spent : Allocation) (c : Category) :
    0 ≤ surplus_contribution alloc spent c := by
  unfold surplus_contribution
  split_ifs with h
  · exact le_of_lt h
  · exact le_refl 0

lemma deficit_contribution_nonneg (alloc spent : Allocation) (c : Category) :
    0 ≤ deficit_contribution alloc spent c := by
  unfold deficit_contribution
  split_ifs with h
  · linarith
  · exact le_refl 0

lemma total_surplus_pos (alloc spent : Allocation) (c : Category)
    (hc : 0 < spending_difference alloc spent c) :
    0 < total_surplus alloc spent := by
  have hpos : 0 < surplus_contribution alloc spent c := by
    unfold surplus_contribution
    rw [if_pos hc]
    exact hc
  have h1 := surplus_contribution_nonneg alloc spent .savings
  have h2 := surplus_contribution_nonneg alloc spent .investments
  have h3 := surplus_contribution_nonneg alloc spent .personal
  have h4 := surplus_contribution_nonneg alloc spent .misc
  unfold total_surplus
  cases c <;> linarith

lemma total_deficit_pos (alloc spent : Allocation) (c : Category)
    (hc : spending_difference alloc spent c < 0) :
    0 < total_deficit alloc spent := by
  have hpos : 0 < deficit_contribution alloc spent c := by
    unfold deficit_contribution
    rw [if_pos hc]
    linarith
  have h1 := deficit_contribution_nonneg alloc spent .savings
  have h2 := deficit_contribution_nonneg alloc spent .investments
  have h3 := deficit_contribution_nonneg alloc spent .personal
  have h4 := deficit_contribution_nonneg alloc spent .misc
  unfold total_deficit
  cases c <;> linarith

lemma cover_deficits_ne_nil (alloc spent : Allocation) (ts : ℚ) (hts : 0 < ts)
    (c : Category) (rest : List Category) :
    cover_deficits alloc spent ts (c :: rest) ≠ [] := by
  unfold cover_deficits
  rw [if_neg (not_le.mpr hts)]
  simp

lemma suggestion_list_eq_nil (alloc spent : Allocation) :
    suggestion_list alloc spent = [] ↔
      deficit_categories alloc spent = [] ∧ surplus_categories alloc spent = [] := by
  constructor
  · intro h
    by_cases hd : deficit_categories alloc spent = []
    · refine ⟨hd, ?_⟩
      by_contra hs
      obtain ⟨c, hcmem⟩ := List.exists_mem_of_ne_nil _ hs
      have hc := (mem_categories_where _ c).mp
        (by simpa [surplus_categories] using hcmem)
      have hts : 0 < total_surplus alloc spent :=
        total_surplus_pos alloc spent c hc.1
      unfold suggestion_list at h
      rw [if_pos (Or.inl hts)] at h
      rw [if_neg (by simp [hd] : ¬ (surplus_categories alloc spent ≠ [] ∧
        deficit_categories alloc spent ≠ []))] at h
      rw [if_pos hs] at h
      rw [if_pos hts] at h
      simp at h
    · exfalso
      obtain ⟨c, hcmem⟩ := List.exists_mem_of_ne_nil _ hd
      have hc := (mem_categories_where _ c).mp
        (by simpa [deficit_categories] using hcmem)
      have htd : 0 < total_deficit alloc spent :=
        total_deficit_pos alloc spent c hc
      unfold suggestion_list at h
      rw [if_pos (Or.inr htd)] at h
      by_cases hs : surplus_categories alloc spent = []
      · rw [if_neg (by simp [hs] : ¬ (surplus_categories alloc spent ≠ [] ∧
          deficit_categories alloc spent ≠ []))] at h
        rw [if_neg (by simp [hs] : ¬ surplus_categories alloc spent ≠ [])] at h
        rw [if_pos hd] at h
        rcases List.append_eq_nil.mp h with ⟨h1, _⟩
        exact hd (List.map_eq_nil_iff.mp h1)
      · rw [if_pos ⟨hs, hd⟩] at h
        rcases List.append_eq_nil.mp h with ⟨h1, _⟩
        rcases List.append_eq_nil.mp h1 with ⟨h2, _⟩
        obtain ⟨c', rest, hrest⟩ := List.exists_cons_of_ne_nil hd
        rw [hrest] at h2
        obtain ⟨c'', hcmem'⟩ := List.exists_mem_of_ne_nil _ hs
        have hc'' := (mem_categories_where _ c'').mp
          (by simpa [surplus_categories] using hcmem')
        have hts : 0 < total_surplus alloc spent :=
          total_surplus_pos alloc spent c'' hc''.1
        exact cover_deficits_ne_nil alloc spent _ hts c' rest h2
  · rintro ⟨hd, hs⟩
    have hnp : ∀ c, ¬ (spending_difference alloc spent c > 0 ∧
        usage_pct alloc spent c < 85) :=
      (categories_where_eq_nil _).mp (by simpa [surplus_categories] using hs)
    have htips : categories_where (fun c =>
        (spending_difference alloc spent c > 0 ∧ usage_pct alloc spent c < 85) ∧
          usage_pct alloc spent c < 70) = [] :=
      (categories_where_eq_nil _).mpr (fun c hc => hnp c hc.1)
    unfold suggestion_list
    rw [hd, hs, htips]
    simp

lemma total_score_ge_trans : ∀ a b c : ScoredGoal,
    total_score_ge a b → total_score_ge b c → total_score_ge a c := by
  intro a b c hab hbc
  simp only [total_score_ge, decide_eq_true_eq] at *
  exact le_trans hbc hab

lemma total_score_ge_total : ∀ a b : ScoredGoal,
    total_score_ge a b || total_score_ge b a := by
  intro a b
  simp only [total_score_ge, Bool.or_eq_true, decide_eq_true_eq]
  exact le_total b.total_score a.total_score

lemma pre_normal_total_eq (age : ℚ) (risk : RiskTolerance) (t : ℚ) :
    pre_normal_total age risk t = 100 := by
  by_cases hc : risk = RiskTolerance.conservative <;>
    simp only [pre_normal_total, stock_capped, bond_capped, cash_capped,
      bond_after_timeline, stock_after_timeline, cash_after_timeline,
      bond_after_age, cash_after_age, stock_after_age, hc, ne_eq,
      not_true_eq_false, not_false_eq_true, ite_true, ite_false, if_pos,
      if_neg] <;>
    split_ifs <;> ring

/-! ## Claim theorems -/

/-- C1 (counterexample): on the allocation `(10, 10, 5, 10)` with
total income `100`, savings shortfall `50` and investment shortfall
`0`, only `5` can be freed (misc `10` down to the `5` floor, personal
already at the floor) — strictly less than the combined shortfall
`50` — yet `create_unified_reallocation_plan` returns a plan rather
than `None`: a partially-covering plan is returned as a success. -/
theorem realloc_partial_coverage_returned :
    create_unified_reallocation_plan ⟨10, 10, 5, 10⟩ 50 0 100 =
      some ⟨15, 10, 5, 5⟩ ∧
    (15 - 10 : ℚ) + (10 - 10 : ℚ) < 50 := by
  constructor
  · norm_num [create_unified_reallocation_plan, reduction_step]
  · norm_num

/-- C1 (amended): for savings shortfall `≥ 0`, investment shortfall
`≥ 0` with positive combined shortfall, `create_unified_reallocation_plan`
returns `None` exactly when nothing at all can be freed, i.e. when
both `misc` and `personal` are already at or below the 5%-of-income
floor; whenever any positive amount is freed a plan is returned, even
when the freed amount only partially covers the combined shortfall. -/
theorem realloc_none_iff_floors (a : Allocation) (s i income : ℚ)
    (hs : 0 ≤ s) (hi : 0 ≤ i) (hpos : 0 < s + i) :
    create_unified_reallocation_plan a s i income = none ↔
      a.misc ≤ income * 0.05 ∧ a.personal ≤ income * 0.05 := by
  simp only [create_unified_reallocation_plan]
  constructor
  · intro hnone
    split_ifs at hnone with hcond
    push_neg at hcond
    have hA0 : 0 ≤ reduction_step a.misc (income * 0.05) (s + i) :=
      reduction_step_nonneg _ _ _
    have hB0 : 0 ≤ reduction_step a.personal (income * 0.05)
        (s + i - reduction_step a.misc (income * 0.05) (s + i)) :=
      reduction_step_nonneg _ _ _
    have hAz : reduction_step a.misc (income * 0.05) (s + i) = 0 := by linarith
    have hmisc : a.misc ≤ income * 0.05 :=
      (reduction_step_eq_zero_iff _ _ _ hpos).mp hAz
    rw [hAz, sub_zero] at hcond
    have hB0' : 0 ≤ reduction_step a.personal (income * 0.05) (s + i) :=
      reduction_step_nonneg _ _ _
    have hBz : reduction_step a.personal (income * 0.05) (s + i) = 0 := by
      linarith
    exact ⟨hmisc, (reduction_step_eq_zero_iff _ _ _ hpos).mp hBz⟩
  · rintro ⟨h1, h2⟩
    have hAz : reduction_step a.misc (income * 0.05) (s + i) = 0 :=
      (reduction_step_eq_zero_iff _ _ _ hpos).mpr h1
    rw [hAz, sub_zero]
    have hBz : reduction_step a.personal (income * 0.05) (s + i) = 0 :=
      (reduction_step_eq_zero_iff _ _ _ hpos).mpr h2
    rw [hBz, sub_zero]
    rw [if_neg (lt_irrefl (s + i))]

/-- C1 witness: the amended theorem applied at the concrete
allocation `(10, 10, 5, 5)`, shortfalls `50` and `0`, income `100`. -/
theorem realloc_none_iff_floors_witness :
    (0 : ℚ) ≤ 50 ∧ (0 : ℚ) ≤ 0 ∧ (0 : ℚ) < 50 + 0 ∧
    (create_unified_reallocation_plan ⟨10, 10, 5, 5⟩ 50 0 100 = none ↔
      (5 : ℚ) ≤ 100 * 0.05 ∧ (5 : ℚ) ≤ 100 * 0.05) :=
  ⟨by norm_num, by norm_num, by norm_num,
    realloc_none_iff_floors ⟨10, 10, 5, 5⟩ 50 0 100
      (by norm_num) (by norm_num) (by norm_num)⟩

/-- C2: whenever `create_unified_reallocation_plan` returns a plan
(for shortfalls `≥ 0`), the sum of the four category amounts of the
returned allocation equals the sum of the four category amounts of
the input allocation. -/
theorem realloc_preserves_total (a : Allocation) (s i income : ℚ)
    (hs : 0 ≤ s) (hi : 0 ≤ i) (p : Allocation)
    (hp : create_unified_reallocation_plan a s i income = some p) :
    p.total = a.total := by
  simp only [create_unified_reallocation_plan] at hp
  set A := reduction_step a.misc (income * 0.05) (s + i) with hA
  set B := reduction_step a.personal (income * 0.05) (s + i - A) with hB
  have hA0 : 0 ≤ A := reduction_step_nonneg _ _ _
  have hB0 : 0 ≤ B := reduction_step_nonneg _ _ _
  have hAle : A ≤ max 0 (s + i) := reduction_step_le _ _ _
  have hBle : B ≤ max 0 (s + i - A) := reduction_step_le _ _ _
  by_cases hcond : s + i - A - B < s + i
  · rw [if_pos hcond] at hp
    injection hp with hp'
    subst hp'
    have hf : 0 < A + B := by linarith
    have hsum : A + B ≤ s + i := by
      rcases le_or_lt (s + i) 0 with h | h
      · exfalso
        have h1 : A ≤ 0 := le_trans hAle (by rw [max_eq_left h])
        have hAz : A = 0 := le_antisymm h1 hA0
        have h2 : B ≤ 0 := le_trans hBle (by rw [max_eq_left (by linarith)])
        linarith
      · have h1 : A ≤ s + i := le_trans hAle (by rw [max_eq_right h.le])
        rcases le_or_lt (s + i - A) 0 with h3 | h3
        · have h2 : B ≤ 0 := le_trans hBle (by rw [max_eq_left h3])
          linarith
        · have h2 : B ≤ s + i - A := le_trans hBle (by rw [max_eq_right h3.le])
          linarith
    simp only [Allocation.total]
    have hfreed : s + i - (s + i - A - B) = A + B := by ring
    rw [hfreed]
    have key := distribute_freed s i (A + B) hs hi hf hsum
    linarith [key]
  · rw [if_neg hcond] at hp
    exact absurd hp (by simp)

/-- C2 witness: the total-preservation theorem applied at allocation
`(10, 10, 20, 30)`, shortfalls `10` and `15`, income `100`; the plan
`(20, 25, 20, 5)` has the same total `70`. -/
theorem realloc_preserves_total_witness :
    (0 : ℚ) ≤ 10 ∧ (0 : ℚ) ≤ 15 ∧
    create_unified_reallocation_plan ⟨10, 10, 20, 30⟩ 10 15 100 =
      some ⟨20, 25, 20, 5⟩ ∧
    (Allocation.total ⟨20, 25, 20, 5⟩ : ℚ) = Allocation.total ⟨10, 10, 20, 30⟩ :=
  ⟨by norm_num, by norm_num,
    by norm_num [create_unified_reallocation_plan, reduction_step],
    realloc_preserves_total ⟨10, 10, 20, 30⟩ 10 15 100
      (by norm_num) (by norm_num) ⟨20, 25, 20, 5⟩
      (by norm_num [create_unified_reallocation_plan, reduction_step])⟩

/-- C3 (counterexample): the division by months in
`savings_goal_calculator` is not protected by any guard branch: at
`months = 0` a `ZeroDivisionError` propagates (modelled as `none`)
instead of any fallback value being selected. -/
theorem division_by_months_unguarded :
    savings_goal_calculator 100 0 = none := by
  rfl

/-- C3 (amended): the division by rate in
`investment_goal_calculator` is guarded by the explicit `r == 0`
branch, so for `months > 0` and a non-negative annual return rate no
division error propagates from either goal calculator; the divisions
by months themselves are protected only by the caller precondition
`months > 0`, not by a guard branch. -/
theorem goal_calculators_no_error (target : ℚ) (months : ℕ)
    (annual_return_pct : ℚ) (hm : 0 < months) (hr : 0 ≤ annual_return_pct) :
    (savings_goal_calculator target months).isSome ∧
    (investment_goal_calculator target months annual_return_pct).isSome := by
  constructor
  · simp [savings_goal_calculator, Nat.pos_iff_ne_zero.mp hm]
  · rw [investment_goal_calculator]
    by_cases h : annual_return_pct / 100 / 12 = 0
    · simp [h, Nat.pos_iff_ne_zero.mp hm]
    · have hrpos : 0 < annual_return_pct / 100 / 12 := by
        rcases lt_or_eq_of_le (by positivity : (0 : ℚ) ≤ annual_return_pct / 100 / 12) with h1 | h1
        · exact h1
        · exact absurd h1.symm h
      have hpow : 1 < (1 + annual_return_pct / 100 / 12) ^ months :=
        one_lt_pow₀ (by linarith) (Nat.pos_iff_ne_zero.mp hm)
      have hne : (1 + annual_return_pct / 100 / 12) ^ months - 1 ≠ 0 := by
        intro hz
        rw [sub_eq_zero] at hz
        rw [hz] at hpow
        exact lt_irrefl 1 hpow
      simp [h, hne]

/-- C3 witness: the no-error theorem applied at target `120000`,
`12` months, rate `12`. -/
theorem goal_calculators_no_error_witness :
    0 < 12 ∧ (0 : ℚ) ≤ 12 ∧
    ((savings_goal_calculator 120000 12).isSome ∧
      (investment_goal_calculator 120000 12 12).isSome) :=
  ⟨by norm_num, by norm_num,
    goal_calculators_no_error 120000 12 12 (by norm_num) (by norm_num)⟩

/-- C4 (counterexample): percentages `20.01, 20, 45, 15` are
non-negative and sum to `100.01`, within the claimed tolerance
`0.01`, yet for income `100000` the allocated total is `100010`, off
by `10` — far outside the claimed `1e-6` bound on the total. -/
theorem allocate_budget_tolerance_counterexample :
    (0 : ℚ) ≤ 20.01 ∧ (0 : ℚ) ≤ 20 ∧ (0 : ℚ) ≤ 45 ∧ (0 : ℚ) ≤ 15 ∧
    |(20.01 + 20 + 45 + 15 : ℚ) - 100| ≤ 0.01 ∧
    ¬ |(allocate_budget 100000 20.01 20 45 15).total - 100000| ≤ 1 / 1000000 := by
  refine ⟨by norm_num, by norm_num, by norm_num, by norm_num, ?_, ?_⟩
  · rw [abs_le]
    constructor <;> norm_num
  · rw [abs_le]
    push_neg
    intro h
    simp only [allocate_budget, Allocation.total]
    norm_num

/-- C4 (amended): for non-negative percentages summing to exactly
`100`, the four category values of `allocate_budget` sum to exactly
the income (in particular within `1e-6`). -/
theorem allocate_budget_total_exact (total_amount savings_pct investment_pct
    personal_pct misc_pct : ℚ) (h1 : 0 ≤ savings_pct) (h2 : 0 ≤ investment_pct)
    (h3 : 0 ≤ personal_pct) (h4 : 0 ≤ misc_pct)
    (hsum : savings_pct + investment_pct + personal_pct + misc_pct = 100) :
    (allocate_budget total_amount savings_pct investment_pct personal_pct
      misc_pct).total = total_amount := by
  simp only [allocate_budget, Allocation.total]
  field_simp
  linear_combination total_amount * hsum

/-- C4 witness: the exact-total theorem at the spec's scenario:
income `100000` with percentages `20, 20, 45, 15`. -/
theorem allocate_budget_total_exact_witness :
    (0 : ℚ) ≤ 20 ∧ (0 : ℚ) ≤ 20 ∧ (0 : ℚ) ≤ 45 ∧ (0 : ℚ) ≤ 15 ∧
    (20 : ℚ) + 20 + 45 + 15 = 100 ∧
    (allocate_budget 100000 20 20 45 15).total = 100000 :=
  ⟨by norm_num, by norm_num, by norm_num, by norm_num, by norm_num,
    allocate_budget_total_exact 100000 20 20 45 15 (by norm_num) (by norm_num)
      (by norm_num) (by norm_num) (by norm_num)⟩

/-- C5: at a zero annual return rate the compound annuity branch is
bypassed (`r = 0/100/12 = 0`) and `investment_goal_calculator`
returns exactly `target / months`, the linear savings formula, for
every `months > 0`. -/
theorem investment_zero_rate_linear (target : ℚ) (months : ℕ)
    (hm : 0 < months) :
    investment_goal_calculator target months 0 =
      some (target / months) := by
  rw [investment_goal_calculator]
  norm_num [Nat.pos_iff_ne_zero.mp hm]

/-- C5 witness: the zero-rate theorem at target `120000` over `12`
months, giving the spec's scenario value `10000`. -/
theorem investment_zero_rate_linear_witness :
    0 < 12 ∧ investment_goal_calculator 120000 12 0 = some (120000 / 12) :=
  ⟨by norm_num, investment_zero_rate_linear 120000 12 (by norm_num)⟩

/-- C10: calling `allocate_budget` without a misc percentage uses the
declared default `misc_pct = 15`, so the returned misc amount is
`0.15` of the total amount. -/
theorem allocate_budget_default_misc (total_amount savings_pct investment_pct
    personal_pct : ℚ) :
    (allocate_budget_default total_amount savings_pct investment_pct
      personal_pct).misc = 0.15 * total_amount := by
  simp only [allocate_budget_default, allocate_budget]
  norm_num
  ring

set_option maxHeartbeats 1600000 in
/-- C6: for every age `≥ 18`, every risk tolerance among
conservative, moderate, aggressive, and every timeline `> 0`, the
stocks, bonds and cash percentages returned by
`asset_allocation_optimizer` (each rounded to one decimal place) sum
to `100` within a tolerance of `0.1`. -/
theorem portfolio_sum_within_tolerance (age timeline_years : ℚ)
    (risk : RiskTolerance) (ha : 18 ≤ age) (ht : 0 < timeline_years)
    (hr : risk = .conservative ∨ risk = .moderate ∨ risk = .aggressive) :
    |(asset_allocation_optimizer age risk timeline_years).stocks +
      (asset_allocation_optimizer age risk timeline_years).bonds +
      (asset_allocation_optimizer age risk timeline_years).cash - 100| ≤ 0.1 := by
  have htot := pre_normal_total_eq age risk timeline_years
  simp only [asset_allocation_optimizer, htot, ne_eq, not_true_eq_false,
    ite_false, if_neg]
  rcases hr with rfl | rfl | rfl <;>
    simp only [stock_capped, bond_capped, cash_capped, stock_after_timeline,
      cash_after_timeline, bond_after_timeline, stock_after_age, cash_after_age,
      bond_after_age, risk_base_stocks, risk_base_bonds, risk_base_cash,
      age_adjustment, reduceCtorEq, ne_eq, not_false_eq_true, not_true_eq_false,
      ite_true, ite_false] <;>
    split_ifs <;> norm_num [round1, roundHalfEven, round_eq]

/-- C6 witness: the tolerance theorem at boundary age `30`, moderate
risk, timeline `5`. -/
theorem portfolio_sum_within_tolerance_witness :
    (18 : ℚ) ≤ 30 ∧ (0 : ℚ) < 5 ∧
    (RiskTolerance.moderate = RiskTolerance.conservative ∨
      RiskTolerance.moderate = RiskTolerance.moderate ∨
      RiskTolerance.moderate = RiskTolerance.aggressive) ∧
    |(asset_allocation_optimizer 30 RiskTolerance.moderate 5).stocks +
      (asset_allocation_optimizer 30 RiskTolerance.moderate 5).bonds +
      (asset_allocation_optimizer 30 RiskTolerance.moderate 5).cash - 100| ≤ 0.1 :=
  ⟨by norm_num, by norm_num, Or.inr (Or.inl rfl),
    portfolio_sum_within_tolerance 30 5 RiskTolerance.moderate
      (by norm_num) (by norm_num) (Or.inr (Or.inl rfl))⟩

/-- C7: for every age `≥ 18` and timeline `> 0`, the conservative
profile returns a stocks percentage of at most `40`. -/
theorem conservative_stocks_le_40 (age timeline_years : ℚ)
    (ha : 18 ≤ age) (ht : 0 < timeline_years) :
    (asset_allocation_optimizer age RiskTolerance.conservative
      timeline_years).stocks ≤ 40 := by
  have htot := pre_normal_total_eq age RiskTolerance.conservative timeline_years
  simp only [asset_allocation_optimizer, htot, ne_eq, not_true_eq_false,
    ite_false, if_neg]
  simp only [stock_capped, stock_after_timeline, stock_after_age,
    risk_base_stocks, age_adjustment, ne_eq, not_true_eq_false, ite_true,
    ite_false]
  split_ifs <;> norm_num [round1, roundHalfEven, round_eq]

/-- C7 witness: the conservative cap theorem at age `18`, timeline `1`. -/
theorem conservative_stocks_le_40_witness :
    (18 : ℚ) ≤ 18 ∧ (0 : ℚ) < 1 ∧
    (asset_allocation_optimizer 18 RiskTolerance.conservative 1).stocks ≤ 40 :=
  ⟨by norm_num, by norm_num,
    conservative_stocks_le_40 18 1 (by norm_num) (by norm_num)⟩

/-- C9 (counterexample): with allocation `(100, 100, 100, 100)` and
spending `(150, 100, 100, 100)` over 3 months, every surplus category
has usage `≥ 85%` (vacuously — there is no surplus), so the claimed
condition for returning `None` holds, yet the function returns a
`deficit_warning` suggestion list, not `None`. -/
theorem dynamic_realloc_none_counterexample :
    (∀ c, spending_difference ⟨100, 100, 100, 100⟩ ⟨150, 100, 100, 100⟩ c > 0 →
      85 ≤ usage_pct ⟨100, 100, 100, 100⟩ ⟨150, 100, 100, 100⟩ c) ∧
    dynamic_reallocation_suggestions ⟨100, 100, 100, 100⟩
      ⟨150, 100, 100, 100⟩ 3 ≠ none := by
  have hd : deficit_categories ⟨100, 100, 100, 100⟩ ⟨150, 100, 100, 100⟩ ≠ [] := by
    intro hnil
    have hall := (categories_where_eq_nil _).mp
      (by simpa [deficit_categories] using hnil) Category.savings
    apply hall
    norm_num [spending_difference, Allocation.amount]
  constructor
  · intro c hc
    exfalso
    cases c <;> norm_num [spending_difference, Allocation.amount] at hc
  · unfold dynamic_reallocation_suggestions
    rw [if_neg (by norm_num : ¬ (3 : ℕ) < 2)]
    rw [if_neg (fun hnil => hd ((suggestion_list_eq_nil _ _).mp hnil).1)]
    simp

/-- C9 (amended): for `months_tracked ≥ 2`,
`dynamic_reallocation_suggestions` returns `None` exactly when no
category has a deficit AND every surplus category has usage at or
above 85% (i.e. both the deficit list and the under-85% surplus list
are empty); a deficit alone always produces suggestions. -/
theorem dynamic_realloc_none_iff (alloc spent : Allocation)
    (months_tracked : ℕ) (hm : 2 ≤ months_tracked) :
    dynamic_reallocation_suggestions alloc spent months_tracked = none ↔
      deficit_categories alloc spent = [] ∧
        surplus_categories alloc spent = [] := by
  unfold dynamic_reallocation_suggestions
  rw [if_neg (by omega : ¬ months_tracked < 2)]
  by_cases h1 : suggestion_list alloc spent = []
  · rw [if_pos h1]
    exact iff_of_true rfl ((suggestion_list_eq_nil alloc spent).mp h1)
  · rw [if_neg h1]
    exact iff_of_false (by simp)
      (fun hconj => h1 ((suggestion_list_eq_nil alloc spent).mpr hconj))

/-- C9 witness: the amended theorem applied at the all-zero
allocation and spending over 2 months (no surplus, no deficit). -/
theorem dynamic_realloc_none_iff_witness :
    2 ≤ 2 ∧
    (dynamic_reallocation_suggestions ⟨0, 0, 0, 0⟩ ⟨0, 0, 0, 0⟩ 2 = none ↔
      deficit_categories ⟨0, 0, 0, 0⟩ ⟨0, 0, 0, 0⟩ = [] ∧
        surplus_categories ⟨0, 0, 0, 0⟩ ⟨0, 0, 0, 0⟩ = []) :=
  ⟨by norm_num, dynamic_realloc_none_iff ⟨0, 0, 0, 0⟩ ⟨0, 0, 0, 0⟩ 2 (by norm_num)⟩

/-- C8: for at least two goals, `goal_conflict_resolver` returns a
scored list that is ordered non-increasing in `total_score`, and any
two scored goals with equal `total_score` keep the relative order
they have in the scored input list (stability of Python's sort). -/
theorem resolver_sorted_stable (goals : List Goal) (monthly_income : ℚ)
    (current_allocation : Allocation) (h2 : 2 ≤ goals.length) :
    ∃ out, goal_conflict_resolver goals monthly_income current_allocation =
        some out ∧
      out.Pairwise (fun a b => b.total_score ≤ a.total_score) ∧
      ∀ a b : ScoredGoal, a.total_score = b.total_score →
        List.Sublist [a, b]
          (goals.map (score_goal monthly_income current_allocation)) →
        List.Sublist [a, b] out := by
  refine ⟨(goals.map (score_goal monthly_income current_allocation)).mergeSort
    total_score_ge, ?_, ?_, ?_⟩
  · unfold goal_conflict_resolver
    rw [if_neg (by omega : ¬ goals.length < 2)]
  · exact (List.sorted_mergeSort total_score_ge_trans total_score_ge_total _).imp
      (fun h => by simpa [total_score_ge] using h)
  · intro a b heq hsub
    exact List.pair_sublist_mergeSort total_score_ge_trans total_score_ge_total
      (by simp [total_score_ge, heq]) hsub

/-- C8 witness: the sortedness/stability theorem applied to two
concrete goals (a zero-return 12-month goal and a 15%-return
6-month-deadline goal) at income `100000`. -/
theorem resolver_sorted_stable_witness :
    2 ≤ ([⟨"vacation", 120000, 10000, 12, 12, 0⟩,
          ⟨"retirement", 100000, 5000, 6, 12, 15⟩] : List Goal).length ∧
    ∃ out, goal_conflict_resolver
        [⟨"vacation", 120000, 10000, 12, 12, 0⟩,
         ⟨"retirement", 100000, 5000, 6, 12, 15⟩] 100000
        ⟨20000, 20000, 45000, 15000⟩ = some out ∧
      out.Pairwise (fun a b => b.total_score ≤ a.total_score) ∧
      ∀ a b : ScoredGoal, a.total_score = b.total_score →
        List.Sublist [a, b] (([⟨"vacation", 120000, 10000, 12, 12, 0⟩,
          ⟨"retirement", 100000, 5000, 6, 12, 15⟩] : List Goal).map
            (score_goal 100000 ⟨20000, 20000, 45000, 15000⟩)) →
        List.Sublist [a, b] out :=
  ⟨by norm_num,
    resolver_sorted_stable _ 100000 ⟨20000, 20000, 45000, 15000⟩ (by norm_num)⟩

end Budget
